import Mathlib

/-!
Verification of the bootstrap orchestrator in cmd/bootnode/main.go.

The program is embedded shallowly: every call into an external collaborator
(crypto, nat, netutil, net, snet, discover, discv5) is represented by a field
of an environment record `Env` giving the result the collaborator returns for
the arguments the orchestrator passes.  The orchestrator itself, function
`run`, is a line-by-line translation of `main` that returns the list of
observable events it performed (socket binds, background NAT mapping, engine
starts, short-circuit exits) together with the terminal outcome: a fatal
abort (utils.Fatalf, which exits non-zero), a successful exit (os.Exit(0) or
the return after key generation), or blocking forever in the final select.

Log-handler wiring (main.go lines 62-65) and the two fmt.Println progress
prints in the dispatch branches are pure output with no control-flow effect
and are not modelled.
-/

set_option autoImplicit false

namespace Bootnode

/-- An IP address (net.IP), abstracted to its textual form together with the
value of the IsLoopback predicate that the standard library computes from
its bytes. -/
structure IP where
  text : String
  loopback : Bool
  deriving DecidableEq

/-- A resolved UDP socket address (net.UDPAddr): an IP and a port. -/
structure UDPAddr where
  ip : IP
  port : Nat
  deriving DecidableEq

/-- A loaded private key (ecdsa.PrivateKey), abstract handle. -/
structure PrivKey where
  id : Nat
  deriving DecidableEq

/-- A parsed NAT traversal mechanism (nat.Interface), abstract handle.
nat.Parse maps the descriptor "none" to a nil interface, every other valid
descriptor to a non-nil one; the model uses Option accordingly. -/
structure NatMech where
  id : Nat
  deriving DecidableEq

/-- A parsed CIDR allow-list (netutil.Netlist), abstract handle. -/
structure Netlist where
  id : Nat
  deriving DecidableEq

/-- A bound UDP socket (net.UDPConn); LocalAddr is the address it is
actually bound to. -/
structure Conn where
  localAddr : UDPAddr
  deriving DecidableEq

/-- A structured path-aware address (snet.Addr): the ISD and AS numbers of
its IA field, which main.go reads at line 127, plus host and port
components kept abstract. -/
structure SAddr where
  iaI : Nat
  iaA : Nat
  host : String
  l4Port : Nat
  deriving DecidableEq

/-- A bound path-aware socket (snet.Conn), abstract handle. -/
structure SConn where
  id : Nat
  deriving DecidableEq

/-- The engine configuration record discover.Config as filled in at
main.go lines 157-162. -/
structure Config where
  privateKey : PrivKey
  announceAddr : UDPAddr
  announceAddrSCION : String
  netRestrict : Option Netlist
  deriving DecidableEq

/-- The command-line inputs read by main (flag parsing syntax itself is out
of scope; these are the parsed values). -/
structure Flags where
  listenAddr : String
  genKey : String
  writeAddr : Bool
  nodeKeyFile : String
  nodeKeyHex : String
  natdesc : String
  netrestrict : String
  runv5 : Bool
  scionAddrStr : String
  deriving DecidableEq

/-- Results of the external collaborator calls the orchestrator makes.  Each
field gives, for the arguments the orchestrator would pass, the value or
error the collaborator returns in this run.  `snetInit` models snet.Init,
whose error return the source discards (line 129); `none` means it
succeeded, `some e` that it returned error `e`.  `saddrString` models the
String method of snet.Addr on a non-nil receiver and `nilAddrString` the
same method on a nil receiver (the point visible in the source is only
that the method is called unconditionally at line 160). -/
structure Env where
  natParse : String → Except String (Option NatMech)
  generateKey : Except String PrivKey
  saveKey : String → PrivKey → Except String Unit
  loadKeyFile : String → Except String PrivKey
  hexToKey : String → Except String PrivKey
  pubkeyID : PrivKey → String
  parseNetlist : String → Except String Netlist
  resolveUDPAddr : String → Except String UDPAddr
  listenUDP : UDPAddr → Except String Conn
  addrFromString : String → Except String SAddr
  snetInit : SAddr → String → String → Option String
  listenSCION : SAddr → Except String SConn
  externalIP : NatMech → Except String IP
  saddrString : SAddr → String
  nilAddrString : String
  discv5Listen : PrivKey → Conn → UDPAddr → String → Option Netlist → Except String Unit
  discoverListenSCION : Conn → SConn → Config → Except String Unit
  discoverListen : Conn → Config → Except String Unit

/-- Observable events of a run, in program order. -/
inductive Event where
  | genKeySaved (path : String) (key : PrivKey)
  | printAddress (fingerprint : String)
  | bindPrimary (addr : UDPAddr)
  | scionInit (sciondSock : String) (dispatcherSock : String) (initErr : Option String)
  | bindScion (addr : SAddr)
  | natMapSpawned (port : Nat)
  | externalIPQuery
  | startTopic (key : PrivKey) (conn : Conn) (announce : UDPAddr)
      (networkId : String) (restrict : Option Netlist)
  | startLegacy (conn : Conn) (sconn : Option SConn) (cfg : Config)
  deriving DecidableEq

/-- Terminal outcome of a run. -/
inductive Outcome where
  | fatal (msg : String)
  | exitSuccess
  | blockForever
  deriving DecidableEq

/-- The String method of the possibly-nil scionAddr pointer, as invoked at
line 160: applied to the address when the pointer is non-nil, and to the
nil receiver otherwise. -/
def optAddrString (env : Env) : Option SAddr → String
  | none => env.nilAddrString
  | some a => env.saddrString a

/-- The discovery-service control socket path derived at line 127. -/
def sciondPathOf (sa : SAddr) : String :=
  "/run/shm/sciond/sd" ++ toString sa.iaI ++ "-" ++ toString sa.iaA ++ ".sock"

/-- The packet-dispatch control socket path (line 128). -/
def dispatcherPathOf : String := "/run/shm/dispatcher/default.sock"

/-- Lines 120-138: optional alternate (SCION) transport setup.  Returns the
events performed and either a fatal outcome or the pair (scionAddr, sconn)
in scope afterwards.  The result of snet.Init is discarded by the source;
the model records it in the trace but control flow does not consult it. -/
def scionSetup (fl : Flags) (env : Env) :
    List Event × Except Outcome (Option SAddr × Option SConn) :=
  if fl.scionAddrStr = "" then ([], Except.ok (none, none))
  else
    match env.addrFromString fl.scionAddrStr with
    | Except.error e =>
        ([], Except.error (Outcome.fatal
          ("Scion address needs to be specified with -scion: " ++ e)))
    | Except.ok sa =>
        let initErr := env.snetInit sa (sciondPathOf sa) dispatcherPathOf
        match env.listenSCION sa with
        | Except.error e =>
            ([Event.scionInit (sciondPathOf sa) dispatcherPathOf initErr],
             Except.error (Outcome.fatal ("-SCION ListenUDP: " ++ e)))
        | Except.ok sc =>
            ([Event.scionInit (sciondPathOf sa) dispatcherPathOf initErr,
              Event.bindScion sa],
             Except.ok (some sa, some sc))

/-- Lines 140-149: NAT attachment.  realaddr starts as the local address of
the bound primary socket; when a NAT mechanism is present, a port mapping is
spawned in the background unless the address is loopback, and the external
IP is queried synchronously, replacing the IP (keeping the port) on
success. -/
def natStage (env : Env) (natm : Option NatMech) (conn : Conn) :
    List Event × UDPAddr :=
  match natm with
  | none => ([], conn.localAddr)
  | some m =>
      let mapEvs := if conn.localAddr.ip.loopback then []
        else [Event.natMapSpawned conn.localAddr.port]
      match env.externalIP m with
      | Except.ok ext =>
          (mapEvs ++ [Event.externalIPQuery],
           { ip := ext, port := conn.localAddr.port })
      | Except.error _ => (mapEvs ++ [Event.externalIPQuery], conn.localAddr)

/-- Lines 157-162: the discover.Config record built in the legacy branch.
AnnounceAddrSCION is the String method applied to the scionAddr pointer,
whether or not that pointer is nil. -/
def legacyCfg (env : Env) (k : PrivKey) (ra : UDPAddr) (sa : Option SAddr)
    (rl : Option Netlist) : Config :=
  { privateKey := k
    announceAddr := ra
    announceAddrSCION := optAddrString env sa
    netRestrict := rl }

/-- Lines 151-178: engine dispatch.  TopicMode (runv5) starts discv5 with
the primary socket, the key, the announce address, network id "" and the
restrict list; LegacyMode starts discover with both sockets when scionAddr
and sconn are both non-nil, and with the primary socket alone otherwise.
Engine-start failure is fatal; success blocks forever in select. -/
def dispatchStage (fl : Flags) (env : Env) (k : PrivKey) (rl : Option Netlist)
    (sa : Option SAddr) (sc : Option SConn) (conn : Conn) (ra : UDPAddr) :
    List Event × Outcome :=
  if fl.runv5 then
    match env.discv5Listen k conn ra "" rl with
    | Except.error e => ([Event.startTopic k conn ra "" rl], Outcome.fatal e)
    | Except.ok _ => ([Event.startTopic k conn ra "" rl], Outcome.blockForever)
  else
    match sa, sc with
    | some a, some s =>
        match env.discoverListenSCION conn s (legacyCfg env k ra (some a) rl) with
        | Except.error e =>
            ([Event.startLegacy conn (some s) (legacyCfg env k ra (some a) rl)],
             Outcome.fatal e)
        | Except.ok _ =>
            ([Event.startLegacy conn (some s) (legacyCfg env k ra (some a) rl)],
             Outcome.blockForever)
    | sa, _ =>
        match env.discoverListen conn (legacyCfg env k ra sa rl) with
        | Except.error e =>
            ([Event.startLegacy conn none (legacyCfg env k ra sa rl)],
             Outcome.fatal e)
        | Except.ok _ =>
            ([Event.startLegacy conn none (legacyCfg env k ra sa rl)],
             Outcome.blockForever)

/-- Lines 120-178 after the primary socket is bound: scion setup, NAT stage
and dispatch, with their events concatenated in program order. -/
def afterBind (fl : Flags) (env : Env) (natm : Option NatMech) (k : PrivKey)
    (rl : Option Netlist) (conn : Conn) : List Event × Outcome :=
  match (scionSetup fl env).2 with
  | Except.error out => ((scionSetup fl env).1, out)
  | Except.ok (sa, sc) =>
      ((scionSetup fl env).1 ++ (natStage env natm conn).1 ++
        (dispatchStage fl env k rl sa sc conn (natStage env natm conn).2).1,
       (dispatchStage fl env k rl sa sc conn (natStage env natm conn).2).2)

/-- Lines 108-178: resolve the listen address, bind the primary UDP socket
(both fatal on failure), then continue with scion setup, NAT and dispatch. -/
def transportAndDispatch (fl : Flags) (env : Env) (natm : Option NatMech)
    (k : PrivKey) (rl : Option Netlist) : List Event × Outcome :=
  match env.resolveUDPAddr fl.listenAddr with
  | Except.error e => ([], Outcome.fatal ("-ResolveUDPAddr: " ++ e))
  | Except.ok a =>
      match env.listenUDP a with
      | Except.error e => ([], Outcome.fatal ("-ListenUDP: " ++ e))
      | Except.ok conn =>
          ((Event.bindPrimary a) :: (afterBind fl env natm k rl conn).1,
           (afterBind fl env natm k rl conn).2)

/-- Lines 95-106: the write-address short circuit, then netlist parsing
(empty string leaves the restrict list nil, malformed input is fatal),
then the transport stages. -/
def afterKey (fl : Flags) (env : Env) (natm : Option NatMech) (k : PrivKey) :
    List Event × Outcome :=
  if fl.writeAddr then ([Event.printAddress (env.pubkeyID k)], Outcome.exitSuccess)
  else if fl.netrestrict = "" then transportAndDispatch fl env natm k none
  else
    match env.parseNetlist fl.netrestrict with
    | Except.error e => ([], Outcome.fatal ("-netrestrict: " ++ e))
    | Except.ok nl => transportAndDispatch fl env natm k (some nl)

/-- Lines 67-178: the whole of main after flag parsing and log wiring.
nat.Parse comes first (fatal on failure), then the identity switch in
source order (generate-and-exit; neither source; both sources; file; hex),
then the later stages. -/
def run (fl : Flags) (env : Env) : List Event × Outcome :=
  match env.natParse fl.natdesc with
  | Except.error e => ([], Outcome.fatal ("-nat: " ++ e))
  | Except.ok natm =>
      if fl.genKey ≠ "" then
        match env.generateKey with
        | Except.error e => ([], Outcome.fatal ("could not generate key: " ++ e))
        | Except.ok k =>
            match env.saveKey fl.genKey k with
            | Except.error e => ([], Outcome.fatal e)
            | Except.ok _ => ([Event.genKeySaved fl.genKey k], Outcome.exitSuccess)
      else if fl.nodeKeyFile = "" ∧ fl.nodeKeyHex = "" then
        ([], Outcome.fatal "Use -nodekey or -nodekeyhex to specify a private key")
      else if fl.nodeKeyFile ≠ "" ∧ fl.nodeKeyHex ≠ "" then
        ([], Outcome.fatal "Options -nodekey and -nodekeyhex are mutually exclusive")
      else if fl.nodeKeyFile ≠ "" then
        match env.loadKeyFile fl.nodeKeyFile with
        | Except.error e => ([], Outcome.fatal ("-nodekey: " ++ e))
        | Except.ok k => afterKey fl env natm k
      else
        match env.hexToKey fl.nodeKeyHex with
        | Except.error e => ([], Outcome.fatal ("-nodekeyhex: " ++ e))
        | Except.ok k => afterKey fl env natm k

/-- True exactly on engine-start events. -/
def isEngineStart : Event → Bool
  | Event.startTopic _ _ _ _ _ => true
  | Event.startLegacy _ _ _ => true
  | _ => false

/-- The restrictor argument carried by an engine-start event, if any. -/
def eventRestrict : Event → Option (Option Netlist)
  | Event.startTopic _ _ _ _ r => some r
  | Event.startLegacy _ _ cfg => some cfg.netRestrict
  | _ => none

/-- Provenance of the node key at the point afterKey is entered: it was
loaded from the key file, or from the hex string. -/
def keyFrom (fl : Flags) (env : Env) (k : PrivKey) : Prop :=
  (fl.nodeKeyFile ≠ "" ∧ env.loadKeyFile fl.nodeKeyFile = Except.ok k) ∨
  (fl.nodeKeyFile = "" ∧ fl.nodeKeyHex ≠ "" ∧ env.hexToKey fl.nodeKeyHex = Except.ok k)

/-- Provenance of the restrict list at the point the transport stages are
entered: nil for an empty netrestrict flag, otherwise the parsed netlist. -/
def restrictFrom (fl : Flags) (env : Env) (rl : Option Netlist) : Prop :=
  (fl.netrestrict = "" ∧ rl = none) ∨
  (fl.netrestrict ≠ "" ∧ ∃ nl, env.parseNetlist fl.netrestrict = Except.ok nl ∧ rl = some nl)

/-- The restrictor arguments handed to engines during a trace. -/
def engineRestricts (t : List Event) : List (Option Netlist) :=
  t.filterMap eventRestrict

/-- Concrete values used to evaluate the theorems on sample runs. -/
def demoLoop : IP := ⟨"127.0.0.1", true⟩

def demoExtIP : IP := ⟨"203.0.113.9", false⟩

def demoIP : IP := ⟨"192.0.2.10", false⟩

def demoAddr : UDPAddr := ⟨demoIP, 30301⟩

def demoConn : Conn := ⟨demoAddr⟩

def demoKey : PrivKey := ⟨7⟩

def demoMech : NatMech := ⟨2⟩

def demoNetlist : Netlist := ⟨4⟩

def demoSAddr : SAddr := ⟨17, 1039, "192.33.93.195", 30302⟩

def demoSConn : SConn := ⟨3⟩

/-- A sample environment: collaborators behave on the inputs the sample
flags can produce, and fail on the designated bad inputs. -/
def demoEnv : Env where
  natParse s := if s = "none" then Except.ok none
    else if s = "extip:203.0.113.9" then Except.ok (some demoMech)
    else Except.error "invalid mechanism"
  generateKey := Except.ok demoKey
  saveKey _ _ := Except.ok ()
  loadKeyFile p := if p = "key.file" then Except.ok demoKey
    else Except.error "open failed"
  hexToKey h := if h = "abcd" then Except.ok demoKey else Except.error "invalid hex"
  pubkeyID _ := "f3a2"
  parseNetlist s := if s = "10.0.0.0/8" then Except.ok demoNetlist
    else Except.error "invalid CIDR"
  resolveUDPAddr _ := Except.ok demoAddr
  listenUDP a := Except.ok ⟨a⟩
  addrFromString s := if s = "17-1039,[192.33.93.195]:30302" then Except.ok demoSAddr
    else Except.error "invalid address"
  snetInit _ _ _ := none
  listenSCION _ := Except.ok demoSConn
  externalIP _ := Except.ok demoExtIP
  saddrString sa := toString sa.iaI ++ "-" ++ toString sa.iaA ++ ",[" ++
    sa.host ++ "]:" ++ toString sa.l4Port
  nilAddrString := "<nil>"
  discv5Listen _ _ _ _ _ := Except.ok ()
  discoverListenSCION _ _ _ := Except.ok ()
  discoverListen _ _ := Except.ok ()

/-- Sample flags: legacy mode, key from hex, no NAT, no netlist, no
alternate address. -/
def demoFlags : Flags where
  listenAddr := ":30301"
  genKey := ""
  writeAddr := false
  nodeKeyFile := ""
  nodeKeyHex := "abcd"
  natdesc := "none"
  netrestrict := ""
  runv5 := false
  scionAddrStr := ""

/-- A variant environment in which every socket the run binds is bound to
a loopback address and a NAT mechanism is always selected. -/
def loopEnv : Env :=
  { demoEnv with
    natParse := fun _ => Except.ok (some demoMech)
    listenUDP := fun a => Except.ok ⟨⟨demoLoop, a.port⟩⟩ }

theorem scionSetup_cases (fl : Flags) (env : Env) :
    (fl.scionAddrStr = "" ∧ scionSetup fl env = ([], Except.ok (none, none))) ∨
    (fl.scionAddrStr ≠ "" ∧ ∃ e, env.addrFromString fl.scionAddrStr = Except.error e ∧
      scionSetup fl env = ([], Except.error (Outcome.fatal
        ("Scion address needs to be specified with -scion: " ++ e)))) ∨
    (fl.scionAddrStr ≠ "" ∧ ∃ sa e, env.addrFromString fl.scionAddrStr = Except.ok sa ∧
      env.listenSCION sa = Except.error e ∧
      scionSetup fl env =
        ([Event.scionInit (sciondPathOf sa) dispatcherPathOf
            (env.snetInit sa (sciondPathOf sa) dispatcherPathOf)],
         Except.error (Outcome.fatal ("-SCION ListenUDP: " ++ e)))) ∨
    (fl.scionAddrStr ≠ "" ∧ ∃ sa sc, env.addrFromString fl.scionAddrStr = Except.ok sa ∧
      env.listenSCION sa = Except.ok sc ∧
      scionSetup fl env =
        ([Event.scionInit (sciondPathOf sa) dispatcherPathOf
            (env.snetInit sa (sciondPathOf sa) dispatcherPathOf),
          Event.bindScion sa],
         Except.ok (some sa, some sc))) := by
  by_cases hs : fl.scionAddrStr = ""
  · exact Or.inl ⟨hs, by simp [scionSetup, hs]⟩
  · cases hp : env.addrFromString fl.scionAddrStr with
    | error e =>
        exact Or.inr (Or.inl ⟨hs, e, rfl, by simp [scionSetup, hs, hp]⟩)
    | ok sa =>
        cases hl : env.listenSCION sa with
        | error e =>
            exact Or.inr (Or.inr (Or.inl ⟨hs, sa, e, rfl, hl, by
              simp [scionSetup, hs, hp, hl]⟩))
        | ok sc =>
            exact Or.inr (Or.inr (Or.inr ⟨hs, sa, sc, rfl, hl, by
              simp [scionSetup, hs, hp, hl]⟩))

theorem mem_scionSetup (fl : Flags) (env : Env) (ev : Event)
    (h : ev ∈ (scionSetup fl env).1) :
    (∃ s d r, ev = Event.scionInit s d r) ∨ (∃ a, ev = Event.bindScion a) := by
  rcases scionSetup_cases fl env with ⟨_, he⟩ | ⟨_, e, _, he⟩ |
    ⟨_, sa, e, _, _, he⟩ | ⟨_, sa, sc, _, _, he⟩ <;> rw [he] at h <;> simp at h
  · exact Or.inl ⟨_, _, _, h⟩
  · rcases h with h | h
    · exact Or.inl ⟨_, _, _, h⟩
    · exact Or.inr ⟨_, h⟩

theorem bindScion_mem_scionSetup (fl : Flags) (env : Env) (a : SAddr)
    (h : Event.bindScion a ∈ (scionSetup fl env).1) :
    ∃ sc, (scionSetup fl env).2 = Except.ok (some a, some sc) := by
  rcases scionSetup_cases fl env with ⟨_, he⟩ | ⟨_, e, _, he⟩ |
    ⟨_, sa, e, _, _, he⟩ | ⟨_, sa, sc, _, _, he⟩ <;> rw [he] at h <;> simp at h
  rcases h with ⟨rfl⟩
  exact ⟨sc, by rw [he]⟩

theorem natStage_cases (env : Env) (natm : Option NatMech) (conn : Conn) :
    (natm = none ∧ natStage env natm conn = ([], conn.localAddr)) ∨
    (∃ m, natm = some m ∧
      (natStage env natm conn).1 =
        (if conn.localAddr.ip.loopback then []
         else [Event.natMapSpawned conn.localAddr.port]) ++ [Event.externalIPQuery] ∧
      ((∃ ext, env.externalIP m = Except.ok ext ∧
          (natStage env natm conn).2 = { ip := ext, port := conn.localAddr.port }) ∨
       (∃ e, env.externalIP m = Except.error e ∧
          (natStage env natm conn).2 = conn.localAddr))) := by
  cases natm with
  | none => exact Or.inl ⟨rfl, rfl⟩
  | some m =>
      refine Or.inr ⟨m, rfl, ?_, ?_⟩
      · cases hx : env.externalIP m <;> simp [natStage, hx]
      · cases hx : env.externalIP m with
        | error e => exact Or.inr ⟨e, rfl, by simp [natStage, hx]⟩
        | ok ext => exact Or.inl ⟨ext, rfl, by simp [natStage, hx]⟩

theorem mem_natStage (env : Env) (natm : Option NatMech) (conn : Conn) (ev : Event)
    (h : ev ∈ (natStage env natm conn).1) :
    ev = Event.externalIPQuery ∨
    (ev = Event.natMapSpawned conn.localAddr.port ∧ conn.localAddr.ip.loopback = false) := by
  rcases natStage_cases env natm conn with ⟨_, he⟩ | ⟨m, _, he, _⟩
  · rw [he] at h; simp at h
  · rw [he] at h
    by_cases hl : conn.localAddr.ip.loopback <;> simp [hl] at h
    · exact Or.inl h
    · rcases h with h | h
      · exact Or.inr ⟨h, by simpa using hl⟩
      · exact Or.inl h

theorem dispatchStage_events_v5 (fl : Flags) (env : Env) (k : PrivKey)
    (rl : Option Netlist) (sa : Option SAddr) (sc : Option SConn) (conn : Conn)
    (ra : UDPAddr) (h : fl.runv5 = true) :
    (dispatchStage fl env k rl sa sc conn ra).1 = [Event.startTopic k conn ra "" rl] := by
  cases hd : env.discv5Listen k conn ra "" rl <;> simp [dispatchStage, h, hd]

theorem dispatchStage_events_scion (fl : Flags) (env : Env) (k : PrivKey)
    (rl : Option Netlist) (a : SAddr) (s : SConn) (conn : Conn) (ra : UDPAddr)
    (h : fl.runv5 = false) :
    (dispatchStage fl env k rl (some a) (some s) conn ra).1 =
      [Event.startLegacy conn (some s) (legacyCfg env k ra (some a) rl)] := by
  cases hd : env.discoverListenSCION conn s (legacyCfg env k ra (some a) rl) <;>
    simp [dispatchStage, h, hd]

theorem dispatchStage_events_plain (fl : Flags) (env : Env) (k : PrivKey)
    (rl : Option Netlist) (sa : Option SAddr) (sc : Option SConn) (conn : Conn)
    (ra : UDPAddr) (h : fl.runv5 = false) (hns : sa = none ∨ sc = none) :
    (dispatchStage fl env k rl sa sc conn ra).1 =
      [Event.startLegacy conn none (legacyCfg env k ra sa rl)] := by
  cases sa with
  | none =>
      cases sc with
      | none => cases hd : env.discoverListen conn (legacyCfg env k ra none rl) <;>
          simp [dispatchStage, h, hd]
      | some s => cases hd : env.discoverListen conn (legacyCfg env k ra none rl) <;>
          simp [dispatchStage, h, hd]
  | some a =>
      cases sc with
      | none => cases hd : env.discoverListen conn (legacyCfg env k ra (some a) rl) <;>
          simp [dispatchStage, h, hd]
      | some s => rcases hns with hns | hns <;> exact absurd hns (by simp)

theorem dispatchStage_singleton (fl : Flags) (env : Env) (k : PrivKey)
    (rl : Option Netlist) (sa : Option SAddr) (sc : Option SConn) (conn : Conn)
    (ra : UDPAddr) :
    ∃ ev, (dispatchStage fl env k rl sa sc conn ra).1 = [ev] ∧
      isEngineStart ev = true ∧ eventRestrict ev = some rl := by
  by_cases hv : fl.runv5 = true
  · exact ⟨_, dispatchStage_events_v5 fl env k rl sa sc conn ra hv, rfl, rfl⟩
  · have hv' : fl.runv5 = false := by simpa using hv
    cases sa with
    | none =>
        exact ⟨_, dispatchStage_events_plain fl env k rl none sc conn ra hv'
          (Or.inl rfl), rfl, rfl⟩
    | some a =>
        cases sc with
        | none =>
            exact ⟨_, dispatchStage_events_plain fl env k rl (some a) none conn ra hv'
              (Or.inr rfl), rfl, rfl⟩
        | some s =>
            exact ⟨_, dispatchStage_events_scion fl env k rl a s conn ra hv', rfl, rfl⟩

theorem afterBind_cases (fl : Flags) (env : Env) (natm : Option NatMech)
    (k : PrivKey) (rl : Option Netlist) (conn : Conn) :
    (∃ out, (scionSetup fl env).2 = Except.error out ∧
      afterBind fl env natm k rl conn = ((scionSetup fl env).1, out)) ∨
    (∃ sa sc, (scionSetup fl env).2 = Except.ok (sa, sc) ∧
      afterBind fl env natm k rl conn =
        ((scionSetup fl env).1 ++ (natStage env natm conn).1 ++
          (dispatchStage fl env k rl sa sc conn (natStage env natm conn).2).1,
         (dispatchStage fl env k rl sa sc conn (natStage env natm conn).2).2)) := by
  cases hsc : (scionSetup fl env).2 with
  | error out => exact Or.inl ⟨out, rfl, by simp [afterBind, hsc]⟩
  | ok p =>
      obtain ⟨sa, sc⟩ := p
      exact Or.inr ⟨sa, sc, rfl, by simp [afterBind, hsc]⟩

theorem transport_cases (fl : Flags) (env : Env) (natm : Option NatMech)
    (k : PrivKey) (rl : Option Netlist) :
    (∃ m, transportAndDispatch fl env natm k rl = ([], Outcome.fatal m)) ∨
    (∃ a conn, env.resolveUDPAddr fl.listenAddr = Except.ok a ∧
      env.listenUDP a = Except.ok conn ∧
      transportAndDispatch fl env natm k rl =
        ((Event.bindPrimary a) :: (afterBind fl env natm k rl conn).1,
         (afterBind fl env natm k rl conn).2)) := by
  cases hr : env.resolveUDPAddr fl.listenAddr with
  | error e =>
      exact Or.inl ⟨"-ResolveUDPAddr: " ++ e, by simp [transportAndDispatch, hr]⟩
  | ok a =>
      cases hl : env.listenUDP a with
      | error e =>
          exact Or.inl ⟨"-ListenUDP: " ++ e, by simp [transportAndDispatch, hr, hl]⟩
      | ok conn =>
          exact Or.inr ⟨a, conn, rfl, hl, by simp [transportAndDispatch, hr, hl]⟩

theorem afterKey_cases (fl : Flags) (env : Env) (natm : Option NatMech) (k : PrivKey) :
    (fl.writeAddr = true ∧
      afterKey fl env natm k = ([Event.printAddress (env.pubkeyID k)], Outcome.exitSuccess)) ∨
    (fl.writeAddr = false ∧ fl.netrestrict ≠ "" ∧
      ∃ e, env.parseNetlist fl.netrestrict = Except.error e ∧
      afterKey fl env natm k = ([], Outcome.fatal ("-netrestrict: " ++ e))) ∨
    (fl.writeAddr = false ∧ ∃ rl, restrictFrom fl env rl ∧
      afterKey fl env natm k = transportAndDispatch fl env natm k rl) := by
  by_cases hw : fl.writeAddr = true
  · exact Or.inl ⟨hw, by simp [afterKey, hw]⟩
  · have hw' : fl.writeAddr = false := by simpa using hw
    by_cases hn : fl.netrestrict = ""
    · exact Or.inr (Or.inr ⟨hw', none, Or.inl ⟨hn, rfl⟩, by simp [afterKey, hw', hn]⟩)
    · cases hp : env.parseNetlist fl.netrestrict with
      | error e => exact Or.inr (Or.inl ⟨hw', hn, e, rfl, by simp [afterKey, hw', hn, hp]⟩)
      | ok nl =>
          exact Or.inr (Or.inr ⟨hw', some nl, Or.inr ⟨hn, nl, hp, rfl⟩, by
            simp [afterKey, hw', hn, hp]⟩)

theorem run_cases (fl : Flags) (env : Env) :
    (∃ m, run fl env = ([], Outcome.fatal m)) ∨
    (∃ p k, fl.genKey ≠ "" ∧ run fl env = ([Event.genKeySaved p k], Outcome.exitSuccess)) ∨
    (∃ s, fl.writeAddr = true ∧ run fl env = ([Event.printAddress s], Outcome.exitSuccess)) ∨
    (∃ natm k rl, env.natParse fl.natdesc = Except.ok natm ∧
      fl.genKey = "" ∧ fl.writeAddr = false ∧ keyFrom fl env k ∧ restrictFrom fl env rl ∧
      run fl env = transportAndDispatch fl env natm k rl) := by
  cases hn : env.natParse fl.natdesc with
  | error e => exact Or.inl ⟨"-nat: " ++ e, by simp [run, hn]⟩
  | ok natm =>
      by_cases hg : fl.genKey = ""
      · by_cases hf : fl.nodeKeyFile = ""
        · by_cases hh : fl.nodeKeyHex = ""
          · exact Or.inl ⟨"Use -nodekey or -nodekeyhex to specify a private key",
              by simp [run, hn, hg, hf, hh]⟩
          · cases hx : env.hexToKey fl.nodeKeyHex with
            | error e =>
                exact Or.inl ⟨"-nodekeyhex: " ++ e, by simp [run, hn, hg, hf, hh, hx]⟩
            | ok k =>
                have hrun : run fl env = afterKey fl env natm k := by
                  simp [run, hn, hg, hf, hh, hx]
                rcases afterKey_cases fl env natm k with ⟨hw, ha⟩ |
                  ⟨hw, hne, e, hp, ha⟩ | ⟨hw, rl, hrl, ha⟩
                · exact Or.inr (Or.inr (Or.inl ⟨_, hw, hrun.trans ha⟩))
                · exact Or.inl ⟨_, hrun.trans ha⟩
                · exact Or.inr (Or.inr (Or.inr ⟨natm, k, rl, rfl, hg, hw,
                    Or.inr ⟨hf, by simpa using hh, hx⟩, hrl, hrun.trans ha⟩))
        · by_cases hh : fl.nodeKeyHex = ""
          · cases hx : env.loadKeyFile fl.nodeKeyFile with
            | error e =>
                exact Or.inl ⟨"-nodekey: " ++ e, by simp [run, hn, hg, hf, hh, hx]⟩
            | ok k =>
                have hrun : run fl env = afterKey fl env natm k := by
                  simp [run, hn, hg, hf, hh, hx]
                rcases afterKey_cases fl env natm k with ⟨hw, ha⟩ |
                  ⟨hw, hne, e, hp, ha⟩ | ⟨hw, rl, hrl, ha⟩
                · exact Or.inr (Or.inr (Or.inl ⟨_, hw, hrun.trans ha⟩))
                · exact Or.inl ⟨_, hrun.trans ha⟩
                · exact Or.inr (Or.inr (Or.inr ⟨natm, k, rl, rfl, hg, hw,
                    Or.inl ⟨by simpa using hf, hx⟩, hrl, hrun.trans ha⟩))
          · exact Or.inl ⟨"Options -nodekey and -nodekeyhex are mutually exclusive",
              by simp [run, hn, hg, hf, hh]⟩
      · cases hk : env.generateKey with
        | error e =>
            exact Or.inl ⟨"could not generate key: " ++ e, by simp [run, hn, hg, hk]⟩
        | ok k =>
            cases hs : env.saveKey fl.genKey k with
            | error e => exact Or.inl ⟨e, by simp [run, hn, hg, hk, hs]⟩
            | ok u => exact Or.inr (Or.inl ⟨fl.genKey, k, hg, by simp [run, hn, hg, hk, hs]⟩)

theorem countP_scionSetup (fl : Flags) (env : Env) :
    List.countP isEngineStart (scionSetup fl env).1 = 0 := by
  rcases scionSetup_cases fl env with ⟨_, he⟩ | ⟨_, e, _, he⟩ |
    ⟨_, sa, e, _, _, he⟩ | ⟨_, sa, sc, _, _, he⟩ <;> rw [he] <;> rfl

theorem countP_natStage (env : Env) (natm : Option NatMech) (conn : Conn) :
    List.countP isEngineStart (natStage env natm conn).1 = 0 := by
  rcases natStage_cases env natm conn with ⟨_, he⟩ | ⟨m, _, he, _⟩
  · rw [he]; rfl
  · rw [he]
    by_cases hl : conn.localAddr.ip.loopback <;>
      simp [hl, List.countP_cons, isEngineStart]

theorem countP_dispatchStage (fl : Flags) (env : Env) (k : PrivKey)
    (rl : Option Netlist) (sa : Option SAddr) (sc : Option SConn) (conn : Conn)
    (ra : UDPAddr) :
    List.countP isEngineStart (dispatchStage fl env k rl sa sc conn ra).1 = 1 := by
  obtain ⟨ev, he, hes, _⟩ := dispatchStage_singleton fl env k rl sa sc conn ra
  rw [he]
  simp [List.countP_cons, hes]

theorem countP_run_le_one (fl : Flags) (env : Env) :
    List.countP isEngineStart (run fl env).1 ≤ 1 := by
  rcases run_cases fl env with ⟨m, he⟩ | ⟨p, k, _, he⟩ | ⟨s, _, he⟩ |
    ⟨natm, k, rl, _, _, _, _, _, he⟩ <;> rw [he]
  · simp
  · simp [List.countP_cons, isEngineStart]
  · simp [List.countP_cons, isEngineStart]
  · rcases transport_cases fl env natm k rl with ⟨m, ht⟩ | ⟨a, conn, _, _, ht⟩ <;> rw [ht]
    · simp
    · rcases afterBind_cases fl env natm k rl conn with ⟨out, _, hb⟩ | ⟨sa, sc, _, hb⟩ <;>
        rw [hb]
      · simp [List.countP_cons, isEngineStart, countP_scionSetup]
      · simp [List.countP_cons, List.countP_append, isEngineStart,
          countP_scionSetup, countP_natStage, countP_dispatchStage]

theorem mem_transport (fl : Flags) (env : Env) (natm : Option NatMech)
    (k : PrivKey) (rl : Option Netlist) (ev : Event)
    (h : ev ∈ (transportAndDispatch fl env natm k rl).1) :
    (∃ a, ev = Event.bindPrimary a) ∨
    ev ∈ (scionSetup fl env).1 ∨
    (∃ a conn, env.resolveUDPAddr fl.listenAddr = Except.ok a ∧
      env.listenUDP a = Except.ok conn ∧ ev ∈ (natStage env natm conn).1) ∨
    (∃ a conn sa sc, env.resolveUDPAddr fl.listenAddr = Except.ok a ∧
      env.listenUDP a = Except.ok conn ∧ (scionSetup fl env).2 = Except.ok (sa, sc) ∧
      ev ∈ (dispatchStage fl env k rl sa sc conn (natStage env natm conn).2).1) := by
  rcases transport_cases fl env natm k rl with ⟨m, ht⟩ | ⟨a, conn, hr, hl, ht⟩
  · rw [ht] at h; simp at h
  · rw [ht] at h
    rcases afterBind_cases fl env natm k rl conn with ⟨out, hsc, hb⟩ | ⟨sa, sc, hsc, hb⟩ <;>
      rw [hb] at h <;> simp only [List.mem_cons, List.mem_append] at h
    · rcases h with h | h
      · exact Or.inl ⟨a, h⟩
      · exact Or.inr (Or.inl h)
    · rcases h with h | (h | h) | h
      · exact Or.inl ⟨a, h⟩
      · exact Or.inr (Or.inl h)
      · exact Or.inr (Or.inr (Or.inl ⟨a, conn, hr, hl, h⟩))
      · exact Or.inr (Or.inr (Or.inr ⟨a, conn, sa, sc, hr, hl, hsc, h⟩))

theorem scionSetup_snd_update (fl : Flags) (env : Env)
    (f : SAddr → String → String → Option String) :
    (scionSetup fl { env with snetInit := f }).2 = (scionSetup fl env).2 := by
  by_cases hs : fl.scionAddrStr = ""
  · simp [scionSetup, hs]
  · cases hp : env.addrFromString fl.scionAddrStr with
    | error e => simp [scionSetup, hs, hp]
    | ok sa =>
        cases hl : env.listenSCION sa with
        | error e => simp [scionSetup, hs, hp, hl]
        | ok sc => simp [scionSetup, hs, hp, hl]

theorem afterBind_snd_update (fl : Flags) (env : Env)
    (f : SAddr → String → String → Option String) (natm : Option NatMech)
    (k : PrivKey) (rl : Option Netlist) (conn : Conn) :
    (afterBind fl { env with snetInit := f } natm k rl conn).2 =
      (afterBind fl env natm k rl conn).2 := by
  unfold afterBind
  rw [scionSetup_snd_update]
  cases hsc : (scionSetup fl env).2 with
  | error out => rfl
  | ok p => obtain ⟨sa, sc⟩ := p; rfl

theorem transport_snd_update (fl : Flags) (env : Env)
    (f : SAddr → String → String → Option String) (natm : Option NatMech)
    (k : PrivKey) (rl : Option Netlist) :
    (transportAndDispatch fl { env with snetInit := f } natm k rl).2 =
      (transportAndDispatch fl env natm k rl).2 := by
  cases hr : env.resolveUDPAddr fl.listenAddr with
  | error e => simp [transportAndDispatch, hr]
  | ok a =>
      cases hl : env.listenUDP a with
      | error e => simp [transportAndDispatch, hr, hl]
      | ok conn =>
          simp only [transportAndDispatch, hr, hl]
          exact afterBind_snd_update fl env f natm k rl conn

theorem afterKey_snd_update (fl : Flags) (env : Env)
    (f : SAddr → String → String → Option String) (natm : Option NatMech)
    (k : PrivKey) :
    (afterKey fl { env with snetInit := f } natm k).2 =
      (afterKey fl env natm k).2 := by
  unfold afterKey
  by_cases hw : fl.writeAddr = true
  · simp [hw]
  · have hw' : fl.writeAddr = false := by simpa using hw
    by_cases hn : fl.netrestrict = ""
    · simp [hw', hn, transport_snd_update]
    · cases hp : env.parseNetlist fl.netrestrict with
      | error e => simp [hw', hn, hp]
      | ok nl => simp [hw', hn, hp, transport_snd_update]

theorem run_snd_update (fl : Flags) (env : Env)
    (f : SAddr → String → String → Option String) :
    (run fl { env with snetInit := f }).2 = (run fl env).2 := by
  unfold run
  cases hn : env.natParse fl.natdesc with
  | error e => rfl
  | ok natm =>
      by_cases hg : fl.genKey = ""
      · by_cases hf : fl.nodeKeyFile = ""
        · by_cases hh : fl.nodeKeyHex = ""
          · simp [hg, hf, hh]
          · cases hx : env.hexToKey fl.nodeKeyHex with
            | error e => simp [hg, hf, hh, hx]
            | ok k => simp [hg, hf, hh, hx, afterKey_snd_update]
        · by_cases hh : fl.nodeKeyHex = ""
          · cases hx : env.loadKeyFile fl.nodeKeyFile with
            | error e => simp [hg, hf, hh, hx]
            | ok k => simp [hg, hf, hh, hx, afterKey_snd_update]
          · simp [hg, hf, hh]
      · cases hk : env.generateKey with
        | error e => simp [hg, hk]
        | ok k =>
            cases hs : env.saveKey fl.genKey k with
            | error e => simp [hg, hk, hs]
            | ok u => simp [hg, hk, hs]

theorem scionSetup_error_fatal (fl : Flags) (env : Env) (out : Outcome)
    (h : (scionSetup fl env).2 = Except.error out) : ∃ m, out = Outcome.fatal m := by
  rcases scionSetup_cases fl env with ⟨_, he⟩ | ⟨_, e, _, he⟩ |
    ⟨_, sa, e, _, _, he⟩ | ⟨_, sa, sc, _, _, he⟩ <;> rw [he] at h <;> simp at h
  · exact ⟨_, h.symm⟩
  · exact ⟨_, h.symm⟩

theorem bindScion_mem_run (fl : Flags) (env : Env) (a : SAddr)
    (h : Event.bindScion a ∈ (run fl env).1) :
    ∃ sc, (scionSetup fl env).2 = Except.ok (some a, some sc) := by
  rcases run_cases fl env with ⟨m, he⟩ | ⟨p, k, _, he⟩ | ⟨s, _, he⟩ |
    ⟨natm, k, rl, _, _, _, _, _, he⟩ <;> rw [he] at h
  · simp at h
  · simp at h
  · simp at h
  · rcases mem_transport fl env natm k rl _ h with ⟨a2, hx⟩ | hx |
      ⟨a2, conn, _, _, hx⟩ | ⟨a2, conn, sa, sc, _, _, hsc, hx⟩
    · simp at hx
    · exact bindScion_mem_scionSetup fl env a hx
    · rcases mem_natStage env natm conn _ hx with hx2 | ⟨hx2, _⟩ <;> simp at hx2
    · obtain ⟨ev, hev, hes, _⟩ :=
        dispatchStage_singleton fl env k rl sa sc conn (natStage env natm conn).2
      rw [hev] at hx
      simp at hx
      rw [← hx] at hes
      simp [isEngineStart] at hes

theorem run_fatal_of_scionSetup_error (fl : Flags) (env : Env) (out : Outcome)
    (hso : (scionSetup fl env).2 = Except.error out) :
    ∀ a, Event.bindPrimary a ∈ (run fl env).1 → ∃ m, (run fl env).2 = Outcome.fatal m := by
  intro a ha
  rcases run_cases fl env with ⟨m, he⟩ | ⟨p, k, _, he⟩ | ⟨s, _, he⟩ |
    ⟨natm, k, rl, _, _, _, _, _, he⟩
  · exact ⟨m, by rw [he]⟩
  · rw [he] at ha; simp at ha
  · rw [he] at ha; simp at ha
  · rcases transport_cases fl env natm k rl with ⟨m, ht⟩ | ⟨a2, conn, hr, hl2, ht⟩
    · exact ⟨m, by rw [he, ht]⟩
    · rcases afterBind_cases fl env natm k rl conn with ⟨out2, hsc, hb⟩ | ⟨sa, sc, hsc, hb⟩
      · obtain ⟨m, hm⟩ := scionSetup_error_fatal fl env out2 hsc
        refine ⟨m, ?_⟩
        rw [he, ht]
        show (afterBind fl env natm k rl conn).2 = Outcome.fatal m
        rw [hb]
        exact hm
      · rw [hso] at hsc; simp at hsc

theorem bindScion_mem_run_intro (fl : Flags) (env : Env) (natm : Option NatMech)
    (k : PrivKey) (rl : Option Netlist)
    (he : run fl env = transportAndDispatch fl env natm k rl)
    (a : UDPAddr) (conn : Conn)
    (hr : env.resolveUDPAddr fl.listenAddr = Except.ok a)
    (hl : env.listenUDP a = Except.ok conn)
    (sa : SAddr) (hmem : Event.bindScion sa ∈ (scionSetup fl env).1) :
    Event.bindScion sa ∈ (run fl env).1 := by
  have ht : transportAndDispatch fl env natm k rl =
      ((Event.bindPrimary a) :: (afterBind fl env natm k rl conn).1,
       (afterBind fl env natm k rl conn).2) := by
    simp [transportAndDispatch, hr, hl]
  rw [he, ht]
  rcases afterBind_cases fl env natm k rl conn with ⟨out, hsc, hb⟩ | ⟨sa1, sc1, hsc, hb⟩ <;>
    rw [hb] <;> simp only [List.mem_cons, List.mem_append]
  · exact Or.inr hmem
  · exact Or.inr (Or.inl (Or.inl hmem))

/-- Claim C1, amended: in every run supplied with a non-empty but malformed
alternate-network (SCION) address string the alternate socket is never
bound, and every such run in which the primary datagram socket has been
bound ends in a fatal non-zero exit.  The original claim said no socket at
all is bound before the abort; in fact the primary socket bind at line 114
precedes the SCION address parse at line 123, so the primary bind does
happen before the fatal abort. -/
theorem claim_C1_theorem (fl : Flags) (env : Env) (hs : fl.scionAddrStr ≠ "")
    (e : String) (hp : env.addrFromString fl.scionAddrStr = Except.error e) :
    (∀ a, Event.bindScion a ∉ (run fl env).1) ∧
    (∀ a, Event.bindPrimary a ∈ (run fl env).1 →
      ∃ m, (run fl env).2 = Outcome.fatal m) := by
  have hso : (scionSetup fl env).2 = Except.error (Outcome.fatal
      ("Scion address needs to be specified with -scion: " ++ e)) := by
    simp [scionSetup, hs, hp]
  refine ⟨?_, run_fatal_of_scionSetup_error fl env _ hso⟩
  intro a ha
  obtain ⟨sc, hok⟩ := bindScion_mem_run fl env a ha
  rw [hso] at hok
  simp at hok

/-- Claim C2, amended: in LegacyMode the engine configuration record has
alternateAnnounceAddress equal to the string form of the alternate address
when the alternate endpoint is present, but equal to the String method
applied to a nil address pointer when it is absent — not the empty string,
because line 160 calls scionAddr.String() unconditionally (the snet library
renders a nil address as a non-empty placeholder).  The other fields
(identity, announce address, restrictor) are as the claim states, and
building the record is a total operation. -/
theorem claim_C2_theorem (env : Env) (k : PrivKey) (ra : UDPAddr)
    (rl : Option Netlist) (sa : Option SAddr) :
    (∀ a, sa = some a →
      (legacyCfg env k ra sa rl).announceAddrSCION = env.saddrString a) ∧
    (sa = none →
      (legacyCfg env k ra sa rl).announceAddrSCION = env.nilAddrString) ∧
    (legacyCfg env k ra sa rl).privateKey = k ∧
    (legacyCfg env k ra sa rl).announceAddr = ra ∧
    (legacyCfg env k ra sa rl).netRestrict = rl := by
  refine ⟨?_, ?_, rfl, rfl, rfl⟩
  · rintro a rfl; rfl
  · rintro rfl; rfl

/-- Claim C3, amended: a run with a generate-key target path creates a
fresh key pair, persists it and exits successfully, ignoring every later
option — provided the NAT descriptor parses, because nat.Parse runs at
line 67 before the generate-key switch at line 72, so a malformed NAT
descriptor still aborts the run fatally (and a generation or persistence
failure aborts it as well).  The original claim that no other
configuration input can cause a fatal abort on this path is therefore
false for the NAT descriptor. -/
theorem claim_C3_theorem (fl : Flags) (env : Env) (hg : fl.genKey ≠ "")
    (natm : Option NatMech) (hn : env.natParse fl.natdesc = Except.ok natm)
    (k : PrivKey) (hk : env.generateKey = Except.ok k)
    (hsv : env.saveKey fl.genKey k = Except.ok ()) :
    run fl env = ([Event.genKeySaved fl.genKey k], Outcome.exitSuccess) := by
  simp [run, hn, hg, hk, hsv]

/-- Claim C4, amended: with a non-empty alternate-network address string,
failure of the address parse or of opening the bound path-aware socket
makes every run that has bound the primary socket abort fatally; but the
one-time stack initialization (snet.Init, line 129) has its error result
discarded by the source, so its failure by itself never changes the
outcome of the run: the outcome is identical for any two results of the
initialization call. -/
theorem claim_C4_theorem (fl : Flags) (env : Env) (hs : fl.scionAddrStr ≠ "") :
    ((∃ e, env.addrFromString fl.scionAddrStr = Except.error e) →
      ∀ a, Event.bindPrimary a ∈ (run fl env).1 →
        ∃ m, (run fl env).2 = Outcome.fatal m) ∧
    (∀ sa e, env.addrFromString fl.scionAddrStr = Except.ok sa →
      env.listenSCION sa = Except.error e →
      ∀ a, Event.bindPrimary a ∈ (run fl env).1 →
        ∃ m, (run fl env).2 = Outcome.fatal m) ∧
    (∀ f g, (run fl { env with snetInit := f }).2 =
      (run fl { env with snetInit := g }).2) := by
  refine ⟨?_, ?_, ?_⟩
  · rintro ⟨e, hp⟩
    have hso : (scionSetup fl env).2 = Except.error (Outcome.fatal
        ("Scion address needs to be specified with -scion: " ++ e)) := by
      simp [scionSetup, hs, hp]
    exact run_fatal_of_scionSetup_error fl env _ hso
  · intro sa e hsa hle
    have hso : (scionSetup fl env).2 = Except.error (Outcome.fatal
        ("-SCION ListenUDP: " ++ e)) := by
      simp [scionSetup, hs, hsa, hle]
    exact run_fatal_of_scionSetup_error fl env _ hso
  · intro f g
    exact (run_snd_update fl env f).trans (run_snd_update fl env g).symm

/-- Claim C5, confirmed: with no generation path requested, specifying
neither key source or both key sources makes the run abort fatally with an
empty trace (so transport setup is never reached); with exactly one source
the identity is loaded from that source — the run continues into afterKey
with the loaded key on success and aborts fatally exactly when the key
material fails to load. -/
theorem claim_C5_theorem (fl : Flags) (env : Env) (hg : fl.genKey = "") :
    (fl.nodeKeyFile = "" → fl.nodeKeyHex = "" →
      ∃ m, run fl env = ([], Outcome.fatal m)) ∧
    (fl.nodeKeyFile ≠ "" → fl.nodeKeyHex ≠ "" →
      ∃ m, run fl env = ([], Outcome.fatal m)) ∧
    (∀ natm, env.natParse fl.natdesc = Except.ok natm →
      (fl.nodeKeyFile ≠ "" → fl.nodeKeyHex = "" →
        (∀ k, env.loadKeyFile fl.nodeKeyFile = Except.ok k →
          run fl env = afterKey fl env natm k) ∧
        (∀ e, env.loadKeyFile fl.nodeKeyFile = Except.error e →
          run fl env = ([], Outcome.fatal ("-nodekey: " ++ e)))) ∧
      (fl.nodeKeyFile = "" → fl.nodeKeyHex ≠ "" →
        (∀ k, env.hexToKey fl.nodeKeyHex = Except.ok k →
          run fl env = afterKey fl env natm k) ∧
        (∀ e, env.hexToKey fl.nodeKeyHex = Except.error e →
          run fl env = ([], Outcome.fatal ("-nodekeyhex: " ++ e))))) := by
  refine ⟨?_, ?_, ?_⟩
  · intro hf hh
    cases hn : env.natParse fl.natdesc with
    | error e => exact ⟨"-nat: " ++ e, by simp [run, hn]⟩
    | ok natm =>
        exact ⟨"Use -nodekey or -nodekeyhex to specify a private key",
          by simp [run, hn, hg, hf, hh]⟩
  · intro hf hh
    cases hn : env.natParse fl.natdesc with
    | error e => exact ⟨"-nat: " ++ e, by simp [run, hn]⟩
    | ok natm =>
        exact ⟨"Options -nodekey and -nodekeyhex are mutually exclusive",
          by simp [run, hn, hg, hf, hh]⟩
  · intro natm hn
    refine ⟨?_, ?_⟩
    · intro hf hh
      exact ⟨fun k hk => by simp [run, hn, hg, hf, hh, hk],
             fun e hx => by simp [run, hn, hg, hf, hh, hx]⟩
    · intro hf hh
      exact ⟨fun k hk => by simp [run, hn, hg, hf, hh, hk],
             fun e hx => by simp [run, hn, hg, hf, hh, hx]⟩

/-- Claim C7, confirmed: when the NAT descriptor parses to a present (non
"none") mechanism and every socket the run could bind is bound to a
loopback address, no background port-mapping registration event ever
occurs, while the external-IP resolution is still attempted by the NAT
stage on any loopback-bound socket. -/
theorem claim_C7_theorem (fl : Flags) (env : Env) (m : NatMech)
    (_hm : env.natParse fl.natdesc = Except.ok (some m))
    (hlb : ∀ a c, env.listenUDP a = Except.ok c → c.localAddr.ip.loopback = true) :
    (∀ p, Event.natMapSpawned p ∉ (run fl env).1) ∧
    (∀ conn, conn.localAddr.ip.loopback = true →
      Event.externalIPQuery ∈ (natStage env (some m) conn).1) := by
  constructor
  · intro p hp
    rcases run_cases fl env with ⟨m2, he⟩ | ⟨p2, k, _, he⟩ | ⟨s, _, he⟩ |
      ⟨natm, k, rl, _, _, _, _, _, he⟩ <;> rw [he] at hp
    · simp at hp
    · simp at hp
    · simp at hp
    · rcases mem_transport fl env natm k rl _ hp with ⟨a, hx⟩ | hx |
        ⟨a, conn, _, hlu, hx⟩ | ⟨a, conn, sa, sc, _, _, _, hx⟩
      · simp at hx
      · rcases mem_scionSetup fl env _ hx with ⟨s1, d1, r1, hx2⟩ | ⟨a1, hx2⟩ <;>
          simp at hx2
      · rcases mem_natStage env natm conn _ hx with hx2 | ⟨_, hx2⟩
        · simp at hx2
        · rw [hlb a conn hlu] at hx2; simp at hx2
      · obtain ⟨ev, hev, hes, _⟩ :=
          dispatchStage_singleton fl env k rl sa sc conn (natStage env natm conn).2
        rw [hev] at hx
        simp at hx
        rw [← hx] at hes
        simp [isEngineStart] at hes
  · intro conn hloop
    rcases natStage_cases env (some m) conn with ⟨h1, _⟩ | ⟨m2, _, he1, _⟩
    · simp at h1
    · rw [he1]; simp

/-- Claim C8, confirmed: with a NAT mechanism present, when external-IP
resolution succeeds the announce address becomes the external IP with the
original local port, and when it fails the announce address stays the
local socket address; in either case, once the primary socket is bound and
alternate setup has succeeded, the outcome of the run is exactly the
outcome of engine dispatch on the NAT-stage address, so an external-IP
failure never aborts startup. -/
theorem claim_C8_theorem (fl : Flags) (env : Env) (m : NatMech) (k : PrivKey)
    (rl : Option Netlist) (conn : Conn) :
    (∀ ext, env.externalIP m = Except.ok ext →
      (natStage env (some m) conn).2 = { ip := ext, port := conn.localAddr.port }) ∧
    (∀ e, env.externalIP m = Except.error e →
      (natStage env (some m) conn).2 = conn.localAddr) ∧
    (∀ natm a sa sc, env.resolveUDPAddr fl.listenAddr = Except.ok a →
      env.listenUDP a = Except.ok conn →
      (scionSetup fl env).2 = Except.ok (sa, sc) →
      (transportAndDispatch fl env natm k rl).2 =
        (dispatchStage fl env k rl sa sc conn (natStage env natm conn).2).2) := by
  refine ⟨?_, ?_, ?_⟩
  · intro ext hx; simp [natStage, hx]
  · intro e hx; simp [natStage, hx]
  · intro natm a sa sc hr hlu hsc
    simp [transportAndDispatch, hr, hlu, afterBind, hsc]

/-- Claim C9, confirmed: an empty netlist string leaves the restrict list
nil — every restrictor an engine is ever handed in such a run is nil — and
a malformed CIDR string (outside the generate-key and write-address short
circuits, which exit before the netlist is read) makes the run abort
fatally with an empty trace, so address resolution, socket binding and
engine dispatch are never invoked and there is no fallback to
unrestricted. -/
theorem claim_C9_theorem (fl : Flags) (env : Env) :
    (fl.netrestrict = "" →
      ∀ r, r ∈ engineRestricts (run fl env).1 → r = none) ∧
    (∀ e, fl.netrestrict ≠ "" → env.parseNetlist fl.netrestrict = Except.error e →
      fl.genKey = "" → fl.writeAddr = false →
      ∃ m, run fl env = ([], Outcome.fatal m)) := by
  constructor
  · intro hempty r hr
    rcases run_cases fl env with ⟨m, he⟩ | ⟨p, k, _, he⟩ | ⟨s, _, he⟩ |
      ⟨natm, k, rl, _, _, _, _, hrl, he⟩ <;> rw [he] at hr
    · simp [engineRestricts, eventRestrict] at hr
    · simp [engineRestricts, eventRestrict] at hr
    · simp [engineRestricts, eventRestrict] at hr
    · have hrlnone : rl = none := by
        rcases hrl with ⟨_, h⟩ | ⟨hne, _⟩
        · exact h
        · exact absurd hempty hne
      rw [engineRestricts, List.mem_filterMap] at hr
      obtain ⟨ev, hev, hevr⟩ := hr
      rcases mem_transport fl env natm k rl ev hev with ⟨a, hx⟩ | hx |
        ⟨a, conn, _, _, hx⟩ | ⟨a, conn, sa, sc, _, _, _, hx⟩
      · rw [hx] at hevr; simp [eventRestrict] at hevr
      · rcases mem_scionSetup fl env ev hx with ⟨s1, d1, r1, hx2⟩ | ⟨a1, hx2⟩ <;>
          rw [hx2] at hevr <;> simp [eventRestrict] at hevr
      · rcases mem_natStage env natm conn ev hx with hx2 | ⟨hx2, _⟩ <;>
          rw [hx2] at hevr <;> simp [eventRestrict] at hevr
      · obtain ⟨ev2, hev2, _, hevr2⟩ :=
          dispatchStage_singleton fl env k rl sa sc conn (natStage env natm conn).2
        rw [hev2] at hx
        simp at hx
        rw [hx, hevr2] at hevr
        have h2 : rl = r := Option.some.inj hevr
        rw [← h2, hrlnone]
  · intro e hne hperr hg hw
    rcases run_cases fl env with ⟨m, he⟩ | ⟨p, k, hg2, he⟩ | ⟨s, hw2, he⟩ |
      ⟨natm, k, rl, _, _, _, _, hrl, he⟩
    · exact ⟨m, he⟩
    · exact absurd hg hg2
    · rw [hw] at hw2; simp at hw2
    · rcases hrl with ⟨h1, _⟩ | ⟨_, nl, hok, _⟩
      · exact absurd h1 hne
      · rw [hperr] at hok; simp at hok

/-- Claim C10, confirmed: in TopicMode with a non-empty alternate address,
once the run has bound the primary socket, the alternate transport is
still parsed, initialized and bound (the bindScion and scionInit events
occur), yet the engine started is the topic engine with only the primary
socket, the announce address from the NAT stage, the empty network-id
string and the restrict list: no legacy-engine start event, which is the
only event carrying the alternate socket, ever occurs. -/
theorem claim_C10_theorem (fl : Flags) (env : Env) (natm : Option NatMech)
    (k : PrivKey) (rl : Option Netlist) (hv5 : fl.runv5 = true)
    (hs : fl.scionAddrStr ≠ "") (a : UDPAddr) (conn : Conn)
    (hra : env.resolveUDPAddr fl.listenAddr = Except.ok a)
    (hlu : env.listenUDP a = Except.ok conn)
    (sa : SAddr) (hsa : env.addrFromString fl.scionAddrStr = Except.ok sa)
    (sc : SConn) (hlsc : env.listenSCION sa = Except.ok sc) :
    Event.bindScion sa ∈ (transportAndDispatch fl env natm k rl).1 ∧
    Event.scionInit (sciondPathOf sa) dispatcherPathOf
        (env.snetInit sa (sciondPathOf sa) dispatcherPathOf)
      ∈ (transportAndDispatch fl env natm k rl).1 ∧
    (∀ c oc cfg, Event.startLegacy c oc cfg ∉ (transportAndDispatch fl env natm k rl).1) ∧
    Event.startTopic k conn (natStage env natm conn).2 "" rl
      ∈ (transportAndDispatch fl env natm k rl).1 := by
  have hss : scionSetup fl env =
      ([Event.scionInit (sciondPathOf sa) dispatcherPathOf
          (env.snetInit sa (sciondPathOf sa) dispatcherPathOf),
        Event.bindScion sa], Except.ok (some sa, some sc)) := by
    simp [scionSetup, hs, hsa, hlsc]
  have hd : (dispatchStage fl env k rl (some sa) (some sc) conn
      (natStage env natm conn).2).1 =
      [Event.startTopic k conn (natStage env natm conn).2 "" rl] :=
    dispatchStage_events_v5 fl env k rl (some sa) (some sc) conn _ hv5
  have htr : (transportAndDispatch fl env natm k rl).1 =
      Event.bindPrimary a ::
        Event.scionInit (sciondPathOf sa) dispatcherPathOf
          (env.snetInit sa (sciondPathOf sa) dispatcherPathOf) ::
        Event.bindScion sa ::
        ((natStage env natm conn).1 ++
          [Event.startTopic k conn (natStage env natm conn).2 "" rl]) := by
    simp [transportAndDispatch, hra, hlu, afterBind, hss, hd]
  refine ⟨?_, ?_, ?_, ?_⟩
  · rw [htr]; simp
  · rw [htr]; simp
  · intro c oc cfg hmem
    rw [htr] at hmem
    simp only [List.mem_cons, List.mem_append, List.mem_singleton] at hmem
    rcases hmem with h | h | h | h | h
    · simp at h
    · simp at h
    · simp at h
    · rcases mem_natStage env natm conn _ h with h2 | ⟨h2, _⟩ <;> simp at h2
    · simp at h
  · rw [htr]; simp

/-- Claim C6, confirmed: the dispatcher always performs exactly one
engine-start event and a whole run performs at most one; in TopicMode the
topic engine receives the primary socket, the identity key, the announce
address, the empty network-id string and the restrict list; in LegacyMode
the legacy engine receives both sockets exactly when the alternate pair is
present and only the primary socket otherwise; and over whole runs, a
topic start implies TopicMode with empty network id, while a legacy start
implies LegacyMode and carries the alternate socket exactly when the
alternate socket was bound during the run. -/
theorem claim_C6_theorem (fl : Flags) (env : Env) (k : PrivKey) (rl : Option Netlist)
    (sa : Option SAddr) (sc : Option SConn) (conn : Conn) (ra : UDPAddr) :
    List.countP isEngineStart (dispatchStage fl env k rl sa sc conn ra).1 = 1 ∧
    List.countP isEngineStart (run fl env).1 ≤ 1 ∧
    (fl.runv5 = true →
      (dispatchStage fl env k rl sa sc conn ra).1 = [Event.startTopic k conn ra "" rl]) ∧
    (fl.runv5 = false → ∀ a s, sa = some a → sc = some s →
      (dispatchStage fl env k rl sa sc conn ra).1 =
        [Event.startLegacy conn (some s) (legacyCfg env k ra (some a) rl)]) ∧
    (fl.runv5 = false → (sa = none ∨ sc = none) →
      (dispatchStage fl env k rl sa sc conn ra).1 =
        [Event.startLegacy conn none (legacyCfg env k ra sa rl)]) ∧
    (∀ k2 c a s r, Event.startTopic k2 c a s r ∈ (run fl env).1 →
      fl.runv5 = true ∧ s = "") ∧
    (∀ c oc cfg, Event.startLegacy c oc cfg ∈ (run fl env).1 →
      fl.runv5 = false ∧
        ((∃ x, oc = some x) ↔ ∃ a2, Event.bindScion a2 ∈ (run fl env).1)) := by
  refine ⟨countP_dispatchStage fl env k rl sa sc conn ra, countP_run_le_one fl env,
    fun hv => dispatchStage_events_v5 fl env k rl sa sc conn ra hv,
    ?_, fun hv hns => dispatchStage_events_plain fl env k rl sa sc conn ra hv hns,
    ?_, ?_⟩
  · rintro hv a s rfl rfl
    exact dispatchStage_events_scion fl env k rl a s conn ra hv
  · intro k2 c a s r hmem
    rcases run_cases fl env with ⟨m, he⟩ | ⟨p, k1, _, he⟩ | ⟨s1, _, he⟩ |
      ⟨natm, k1, rl1, _, _, _, _, _, he⟩ <;> rw [he] at hmem
    · simp at hmem
    · simp at hmem
    · simp at hmem
    · rcases mem_transport fl env natm k1 rl1 _ hmem with ⟨a1, hx⟩ | hx |
        ⟨a1, c1, _, _, hx⟩ | ⟨a1, c1, sa1, sc1, _, _, hsc1, hx⟩
      · simp at hx
      · rcases mem_scionSetup fl env _ hx with ⟨s2, d2, r2, hx2⟩ | ⟨a2, hx2⟩ <;>
          simp at hx2
      · rcases mem_natStage env natm c1 _ hx with hx2 | ⟨hx2, _⟩ <;> simp at hx2
      · by_cases hv : fl.runv5 = true
        · rw [dispatchStage_events_v5 fl env k1 rl1 sa1 sc1 c1
            (natStage env natm c1).2 hv] at hx
          simp at hx
          obtain ⟨h1, h2, h3, h4, h5⟩ := hx
          exact ⟨hv, h4⟩
        · have hv' : fl.runv5 = false := by simpa using hv
          cases sa1 with
          | none =>
              rw [dispatchStage_events_plain fl env k1 rl1 none sc1 c1
                (natStage env natm c1).2 hv' (Or.inl rfl)] at hx
              simp at hx
          | some a2 =>
              cases sc1 with
              | none =>
                  rw [dispatchStage_events_plain fl env k1 rl1 (some a2) none c1
                    (natStage env natm c1).2 hv' (Or.inr rfl)] at hx
                  simp at hx
              | some s2 =>
                  rw [dispatchStage_events_scion fl env k1 rl1 a2 s2 c1
                    (natStage env natm c1).2 hv'] at hx
                  simp at hx
  · intro c oc cfg hmem
    rcases run_cases fl env with ⟨m, he⟩ | ⟨p, k1, _, he⟩ | ⟨s1, _, he⟩ |
      ⟨natm, k1, rl1, _, _, _, _, _, he⟩
    · rw [he] at hmem; simp at hmem
    · rw [he] at hmem; simp at hmem
    · rw [he] at hmem; simp at hmem
    · have hmem2 := hmem
      rw [he] at hmem2
      rcases mem_transport fl env natm k1 rl1 _ hmem2 with ⟨a1, hx⟩ | hx |
        ⟨a1, c1, _, _, hx⟩ | ⟨a1, c1, sa1, sc1, hr1, hl1, hsc1, hx⟩
      · simp at hx
      · rcases mem_scionSetup fl env _ hx with ⟨s2, d2, r2, hx2⟩ | ⟨a2, hx2⟩ <;>
          simp at hx2
      · rcases mem_natStage env natm c1 _ hx with hx2 | ⟨hx2, _⟩ <;> simp at hx2
      · by_cases hv : fl.runv5 = true
        · rw [dispatchStage_events_v5 fl env k1 rl1 sa1 sc1 c1
            (natStage env natm c1).2 hv] at hx
          simp at hx
        · have hv' : fl.runv5 = false := by simpa using hv
          refine ⟨hv', ?_⟩
          rcases scionSetup_cases fl env with ⟨hse, hseq⟩ | ⟨_, e, _, hseq⟩ |
            ⟨_, sa2, e, _, _, hseq⟩ | ⟨_, sa2, sc2, _, _, hseq⟩
          · rw [hseq] at hsc1
            simp at hsc1
            obtain ⟨h1, h2⟩ := hsc1
            subst h1
            subst h2
            rw [dispatchStage_events_plain fl env k1 rl1 none none c1
              (natStage env natm c1).2 hv' (Or.inl rfl)] at hx
            simp at hx
            obtain ⟨hc, hoc, hcfg⟩ := hx
            constructor
            · rintro ⟨x, hx2⟩
              rw [hoc] at hx2
              simp at hx2
            · rintro ⟨a2, ha2⟩
              obtain ⟨sc3, hok⟩ := bindScion_mem_run fl env a2 ha2
              rw [hseq] at hok
              simp at hok
          · rw [hseq] at hsc1; simp at hsc1
          · rw [hseq] at hsc1; simp at hsc1
          · rw [hseq] at hsc1
            simp at hsc1
            obtain ⟨h1, h2⟩ := hsc1
            subst h1
            subst h2
            rw [dispatchStage_events_scion fl env k1 rl1 sa2 sc2 c1
              (natStage env natm c1).2 hv'] at hx
            simp at hx
            obtain ⟨hc, hoc, hcfg⟩ := hx
            constructor
            · intro _
              have hbs : Event.bindScion sa2 ∈ (scionSetup fl env).1 := by
                rw [hseq]; simp
              exact ⟨sa2, bindScion_mem_run_intro fl env natm k1 rl1 he a1 c1
                hr1 hl1 sa2 hbs⟩
            · intro _
              exact ⟨sc2, hoc⟩

/-- Claim C1 counterexample: a concrete run with a malformed alternate
address exits non-zero, but the primary datagram socket has been bound
before the abort, refuting "no socket is bound before the fatal abort". -/
theorem claim_C1_counterexample :
    ({ demoFlags with scionAddrStr := "bad" } : Flags).scionAddrStr ≠ "" ∧
    (∃ e, demoEnv.addrFromString "bad" = Except.error e) ∧
    Event.bindPrimary demoAddr ∈
      (run { demoFlags with scionAddrStr := "bad" } demoEnv).1 ∧
    (∃ m, (run { demoFlags with scionAddrStr := "bad" } demoEnv).2 =
      Outcome.fatal m) :=
  ⟨by decide, ⟨"invalid address", rfl⟩, by decide,
   ⟨"Scion address needs to be specified with -scion: invalid address", rfl⟩⟩

/-- Claim C1 witness: the amended theorem evaluated on the same concrete
malformed-alternate-address run. -/
theorem claim_C1_witness :
    (({ demoFlags with scionAddrStr := "bad" } : Flags).scionAddrStr ≠ "" ∧
      demoEnv.addrFromString
        ({ demoFlags with scionAddrStr := "bad" } : Flags).scionAddrStr =
        Except.error "invalid address") ∧
    ((∀ a, Event.bindScion a ∉
        (run { demoFlags with scionAddrStr := "bad" } demoEnv).1) ∧
     (∀ a, Event.bindPrimary a ∈
        (run { demoFlags with scionAddrStr := "bad" } demoEnv).1 →
       ∃ m, (run { demoFlags with scionAddrStr := "bad" } demoEnv).2 =
         Outcome.fatal m)) :=
  ⟨⟨by decide, rfl⟩,
   claim_C1_theorem { demoFlags with scionAddrStr := "bad" } demoEnv (by decide)
     "invalid address" rfl⟩

/-- Claim C2 counterexample: in a concrete LegacyMode run with no
alternate endpoint the legacy engine is handed a configuration whose
alternate announce address is the nil rendering, which is not the empty
string. -/
theorem claim_C2_counterexample :
    Event.startLegacy demoConn none
      { privateKey := demoKey, announceAddr := demoAddr,
        announceAddrSCION := "<nil>", netRestrict := none }
      ∈ (run demoFlags demoEnv).1 ∧
    ("<nil>" : String) ≠ "" :=
  ⟨by decide, by decide⟩

/-- Claim C2 witness: the amended configuration-record theorem evaluated
at a present and at an absent alternate address. -/
theorem claim_C2_witness :
    ((some demoSAddr : Option SAddr) = some demoSAddr ∧
      (legacyCfg demoEnv demoKey demoAddr (some demoSAddr) none).announceAddrSCION =
        demoEnv.saddrString demoSAddr) ∧
    ((none : Option SAddr) = none ∧
      (legacyCfg demoEnv demoKey demoAddr none none).announceAddrSCION =
        demoEnv.nilAddrString) :=
  ⟨⟨rfl, (claim_C2_theorem demoEnv demoKey demoAddr none (some demoSAddr)).1
      demoSAddr rfl⟩,
   ⟨rfl, (claim_C2_theorem demoEnv demoKey demoAddr none none).2.1 rfl⟩⟩

/-- Claim C3 counterexample: a concrete run with a generate-key path and a
malformed NAT descriptor aborts fatally without generating or persisting
anything, refuting "no other configuration input can cause a fatal abort
on that path". -/
theorem claim_C3_counterexample :
    ({ demoFlags with genKey := "boot.key", natdesc := "bogus" } : Flags).genKey ≠ "" ∧
    run { demoFlags with genKey := "boot.key", natdesc := "bogus" } demoEnv =
      ([], Outcome.fatal "-nat: invalid mechanism") :=
  ⟨by decide, rfl⟩

/-- Claim C3 witness: the amended generate-key theorem evaluated on a
concrete run whose NAT descriptor parses. -/
theorem claim_C3_witness :
    ({ demoFlags with genKey := "boot.key" } : Flags).genKey ≠ "" ∧
    demoEnv.natParse ({ demoFlags with genKey := "boot.key" } : Flags).natdesc =
      Except.ok none ∧
    run { demoFlags with genKey := "boot.key" } demoEnv =
      ([Event.genKeySaved "boot.key" demoKey], Outcome.exitSuccess) :=
  ⟨by decide, rfl,
   claim_C3_theorem { demoFlags with genKey := "boot.key" } demoEnv (by decide)
     none rfl demoKey rfl rfl⟩

/-- Claim C4 counterexample: a concrete run in which the stack
initialization call returns an error while the path-aware socket open
succeeds does not abort: the run blocks forever with an engine started,
refuting "if any step of alternate-transport setup fails the process
aborts fatally" for the initialization step. -/
theorem claim_C4_counterexample :
    Event.scionInit (sciondPathOf demoSAddr) dispatcherPathOf
        (some "sciond connect failed")
      ∈ (run { demoFlags with scionAddrStr := "17-1039,[192.33.93.195]:30302" }
          { demoEnv with snetInit := fun _ _ _ => some "sciond connect failed" }).1 ∧
    (run { demoFlags with scionAddrStr := "17-1039,[192.33.93.195]:30302" }
        { demoEnv with snetInit := fun _ _ _ => some "sciond connect failed" }).2 =
      Outcome.blockForever :=
  ⟨by decide, by decide⟩

/-- Claim C4 witness: the amended theorem evaluated on a concrete
malformed-address run and on two concrete initialization results. -/
theorem claim_C4_witness :
    ({ demoFlags with scionAddrStr := "bad" } : Flags).scionAddrStr ≠ "" ∧
    (∀ a, Event.bindPrimary a ∈
        (run { demoFlags with scionAddrStr := "bad" } demoEnv).1 →
      ∃ m, (run { demoFlags with scionAddrStr := "bad" } demoEnv).2 =
        Outcome.fatal m) ∧
    (run { demoFlags with scionAddrStr := "bad" }
        { demoEnv with snetInit := fun _ _ _ => some "boom" }).2 =
      (run { demoFlags with scionAddrStr := "bad" }
        { demoEnv with snetInit := fun _ _ _ => none }).2 :=
  ⟨by decide,
   (claim_C4_theorem { demoFlags with scionAddrStr := "bad" } demoEnv (by decide)).1
     ⟨"invalid address", rfl⟩,
   (claim_C4_theorem { demoFlags with scionAddrStr := "bad" } demoEnv (by decide)).2.2
     (fun _ _ _ => some "boom") (fun _ _ _ => none)⟩

/-- Claim C5 witness: the identity-provisioning theorem evaluated on a
hex-only run, a both-sources run and a no-source run. -/
theorem claim_C5_witness :
    demoFlags.genKey = "" ∧
    demoFlags.nodeKeyFile = "" ∧
    demoFlags.nodeKeyHex ≠ "" ∧
    run demoFlags demoEnv = afterKey demoFlags demoEnv none demoKey ∧
    (∃ m, run { demoFlags with nodeKeyFile := "key.file" } demoEnv =
      ([], Outcome.fatal m)) ∧
    (∃ m, run { demoFlags with nodeKeyHex := "" } demoEnv =
      ([], Outcome.fatal m)) :=
  ⟨rfl, rfl, by decide,
   (((claim_C5_theorem demoFlags demoEnv rfl).2.2 none rfl).2 rfl (by decide)).1
     demoKey rfl,
   (claim_C5_theorem { demoFlags with nodeKeyFile := "key.file" } demoEnv rfl).2.1
     (by decide) (by decide),
   (claim_C5_theorem { demoFlags with nodeKeyHex := "" } demoEnv rfl).1 rfl rfl⟩

/-- Claim C6 witness: the dispatch theorem evaluated on a concrete
LegacyMode run with no alternate endpoint. -/
theorem claim_C6_witness :
    demoFlags.runv5 = false ∧
    (dispatchStage demoFlags demoEnv demoKey none none none demoConn demoAddr).1 =
      [Event.startLegacy demoConn none (legacyCfg demoEnv demoKey demoAddr none none)] ∧
    List.countP isEngineStart (run demoFlags demoEnv).1 ≤ 1 :=
  ⟨rfl,
   (claim_C6_theorem demoFlags demoEnv demoKey none none none demoConn
     demoAddr).2.2.2.2.1 rfl (Or.inl rfl),
   (claim_C6_theorem demoFlags demoEnv demoKey none none none demoConn demoAddr).2.1⟩

/-- Claim C7 witness: the loopback theorem evaluated in an environment
where every bound socket is loopback and a NAT mechanism is selected. -/
theorem claim_C7_witness :
    loopEnv.natParse demoFlags.natdesc = Except.ok (some demoMech) ∧
    (∀ p, Event.natMapSpawned p ∉ (run demoFlags loopEnv).1) ∧
    (∀ conn, conn.localAddr.ip.loopback = true →
      Event.externalIPQuery ∈ (natStage loopEnv (some demoMech) conn).1) := by
  have hlb : ∀ a c, loopEnv.listenUDP a = Except.ok c →
      c.localAddr.ip.loopback = true := by
    intro a c h
    have h0 : loopEnv.listenUDP a = Except.ok (⟨⟨demoLoop, a.port⟩⟩ : Conn) := rfl
    rw [h0] at h
    have h2 := Except.ok.inj h
    rw [← h2]
    rfl
  exact ⟨rfl, (claim_C7_theorem demoFlags loopEnv demoMech rfl hlb).1,
    (claim_C7_theorem demoFlags loopEnv demoMech rfl hlb).2⟩

/-- Claim C8 witness: the announce-address theorem evaluated on a
successful and on a failing external-IP resolution, plus the outcome
equation on the concrete legacy run. -/
theorem claim_C8_witness :
    (demoEnv.externalIP demoMech = Except.ok demoExtIP ∧
      (natStage demoEnv (some demoMech) demoConn).2 =
        { ip := demoExtIP, port := demoConn.localAddr.port }) ∧
    (({ demoEnv with externalIP := fun _ => Except.error "timeout" } : Env).externalIP
        demoMech = Except.error "timeout" ∧
      (natStage { demoEnv with externalIP := fun _ => Except.error "timeout" }
        (some demoMech) demoConn).2 = demoConn.localAddr) ∧
    (transportAndDispatch demoFlags demoEnv none demoKey none).2 =
      (dispatchStage demoFlags demoEnv demoKey none none none demoConn
        (natStage demoEnv none demoConn).2).2 :=
  ⟨⟨rfl, (claim_C8_theorem demoFlags demoEnv demoMech demoKey none demoConn).1
      demoExtIP rfl⟩,
   ⟨rfl, (claim_C8_theorem demoFlags
      { demoEnv with externalIP := fun _ => Except.error "timeout" }
      demoMech demoKey none demoConn).2.1 "timeout" rfl⟩,
   (claim_C8_theorem demoFlags demoEnv demoMech demoKey none demoConn).2.2
     none demoAddr none none rfl rfl rfl⟩

/-- Claim C9 witness: the netlist theorem evaluated on an empty netlist
run and on a malformed-CIDR run. -/
theorem claim_C9_witness :
    (demoFlags.netrestrict = "" ∧
      ∀ r, r ∈ engineRestricts (run demoFlags demoEnv).1 → r = none) ∧
    (({ demoFlags with netrestrict := "not-a-cidr" } : Flags).netrestrict ≠ "" ∧
      demoEnv.parseNetlist "not-a-cidr" = Except.error "invalid CIDR" ∧
      ∃ m, run { demoFlags with netrestrict := "not-a-cidr" } demoEnv =
        ([], Outcome.fatal m)) :=
  ⟨⟨rfl, (claim_C9_theorem demoFlags demoEnv).1 rfl⟩,
   ⟨by decide, rfl,
    (claim_C9_theorem { demoFlags with netrestrict := "not-a-cidr" } demoEnv).2
      "invalid CIDR" (by decide) rfl rfl rfl⟩⟩

/-- Claim C10 witness: the TopicMode-with-alternate theorem evaluated on a
concrete run. -/
theorem claim_C10_witness :
    Event.bindScion demoSAddr ∈
      (transportAndDispatch { demoFlags with runv5 := true, scionAddrStr := "17-1039,[192.33.93.195]:30302" } demoEnv none demoKey none).1 ∧
    (∀ c oc cfg, Event.startLegacy c oc cfg ∉
      (transportAndDispatch { demoFlags with runv5 := true, scionAddrStr := "17-1039,[192.33.93.195]:30302" } demoEnv none demoKey none).1) ∧
    Event.startTopic demoKey demoConn (natStage demoEnv none demoConn).2 "" none ∈
      (transportAndDispatch { demoFlags with runv5 := true, scionAddrStr := "17-1039,[192.33.93.195]:30302" } demoEnv none demoKey none).1 := by
  have h := claim_C10_theorem
    { demoFlags with runv5 := true, scionAddrStr := "17-1039,[192.33.93.195]:30302" }
    demoEnv none demoKey none rfl (by decide) demoAddr demoConn rfl rfl
    demoSAddr rfl demoSConn rfl
  exact ⟨h.1, h.2.2.1, h.2.2.2⟩

end Bootnode
